import Mathlib

/-
Verification of the query-resolution pipeline of `src/github_handler.py`
(class `GitHubHandler`: `process_query`, `_extract_repo_info`,
`_filter_relevant_files`, `_create_error_response`).

Modelling conventions, stated once here:

* Python values reachable through the optional `context` mapping are modelled
  by the inductive `PyVal`; Python truthiness (`if not repo_info`) is
  `PyVal.truthy`.
* The remote provider (PyGithub) is an external collaborator.  Its three
  operations used by the handler — `get_repo`, `repo.get_contents("")`, and
  `file.decoded_content.decode("utf-8")` — are modelled as the fields of a
  `Provider` record, each returning `Except String` (an exception carrying
  its `str(e)` message).  The `try/except` around the whole body of
  `process_query` is modelled by propagating the `Except.error` to
  `_create_error_response`.
* `datetime.now(timezone.utc).isoformat()` is modelled by a `now : String`
  parameter; every metadata block built during one call carries it.
* Scores in the Python code are `k * 1 + m * 0.5` with small `k`, `m`, exact
  in floating point.  We store twice the score as a `Nat` (`Score`): the
  `score += 1` of the source is `+ 2`, the `score += 0.5` bonus is `+ 1`,
  and `score > 0`, score equality, and score ordering are unchanged by the
  doubling.
* `sorted(scored_files, reverse=True)` sorts the `(score, file)` tuples.
  CPython implements `reverse=True` by reversing the list, running the
  stable ascending sort, and reversing again; comparing two tuples compares
  the scores first and, when the scores are equal, falls through to the
  `ContentFile` objects, which define equality but no ordering, so CPython
  raises `TypeError` there.  `tupleLt` models one tuple comparison
  (an `Except`), `insertAsc`/`sortAscLoop` model the stable ascending
  insertion of each element after its equal predecessors, and `pySortedRev`
  models the reverse / sort / reverse composition.
* Python `str.lower()` and `str.split()` are modelled on the ASCII
  strings that occur here (`pyLower`, `pySplit`); `term in filename` is the
  substring test `occursIn`; `str.endswith(tuple)` is `trailsWith`.
-/

/-- Python values, as far as the handler inspects them: the value stored
under the `"repository"` context key is returned untouched by
`_extract_repo_info`, and `process_query` only asks for its truthiness. -/
inductive PyVal where
  | noneV
  | str (s : String)
  | intV (n : Int)
  | boolV (b : Bool)
  deriving DecidableEq

/-- Python truthiness: `None`, `""`, `0`, `False` are falsy. -/
def PyVal.truthy : PyVal → Bool
  | .noneV => false
  | .str s => !(s == "")
  | .intV n => !(n == 0)
  | .boolV b => b

/-- The optional `context` dictionary: string keys to Python values. -/
abbrev Ctx := List (String × PyVal)

/-- Python `key in dict`. -/
def dictHasKey (d : Ctx) (k : String) : Bool :=
  d.any (fun p => p.1 == k)

/-- Python `dict[key]` (first binding; Python dictionaries have unique keys). -/
def dictGet (d : Ctx) (k : String) : PyVal :=
  match d.find? (fun p => p.1 == k) with
  | some p => p.2
  | none => PyVal.noneV

/-- A top-level repository entry as used by the handler: `file.name`,
`file.path`, `file.html_url`, `file.size`. -/
structure ContentFile where
  name : String
  path : String
  html_url : String
  size : Nat
  deriving DecidableEq

/-- The repository metadata fields read by `process_query`. -/
structure RepoMeta where
  name : String
  description : Option String
  stargazers_count : Nat
  forks_count : Nat
  language : Option String
  html_url : String
  deriving DecidableEq

/-- The `metadata` block attached to every item:
`{"source": "github", "timestamp": ...}`. -/
structure ItemMeta where
  source : String
  timestamp : String
  deriving DecidableEq

/-- One element of the returned list: a `"repository_info"`,
`"file_content"`, or `"error"` dictionary. -/
inductive ContentItem where
  | repository_info (repo : RepoMeta) (m : ItemMeta)
  | file_content (name path url content : String) (m : ItemMeta)
  | error (msg : String) (m : ItemMeta)
  deriving DecidableEq

/-- The remote provider operations used by the handler
(`github.get_repo`, `repo.get_contents("")`,
`file.decoded_content.decode("utf-8")`); each may raise, carrying the
message `str(e)`. -/
structure Provider where
  get_repo : PyVal → Except String RepoMeta
  get_contents : PyVal → Except String (List ContentFile)
  decoded_content : ContentFile → Except String String

/-- ASCII lower-casing of one character, as Python `str.lower()` does on the
ASCII inputs that occur here. -/
def pyLowerChar (c : Char) : Char :=
  if 'A' ≤ c ∧ c ≤ 'Z' then Char.ofNat (c.toNat + 32) else c

/-- Python `s.lower()` on ASCII strings. -/
def pyLower (s : String) : String :=
  String.mk (s.data.map pyLowerChar)

/-- The whitespace characters Python `str.split()` splits on. -/
def isPySpace (c : Char) : Bool :=
  c == ' ' || c == '\t' || c == '\n' || c == '\r' || c == '\x0b' || c == '\x0c'

/-- Worker for `pySplit`: `cur` holds the current token reversed. -/
def wsSplitAux : List Char → List Char → List String
  | cur, [] => if cur.isEmpty then [] else [String.mk cur.reverse]
  | cur, c :: cs =>
    if isPySpace c then
      if cur.isEmpty then wsSplitAux [] cs
      else String.mk cur.reverse :: wsSplitAux [] cs
    else wsSplitAux (c :: cur) cs

/-- Python `s.split()` with no argument: split on whitespace runs, no empty
tokens. -/
def pySplit (s : String) : List String :=
  wsSplitAux [] s.data

/-- `leadsWith t s`: `t` is a prefix of the character list `s`. -/
def leadsWith : List Char → List Char → Bool
  | [], _ => true
  | _ :: _, [] => false
  | a :: as, b :: bs => a == b && leadsWith as bs

/-- `occursIn t s`: Python `t in s`, the contiguous-substring test. -/
def occursIn (t : List Char) : List Char → Bool
  | [] => leadsWith t []
  | c :: rest => leadsWith t (c :: rest) || occursIn t rest

/-- `trailsWith t s`: Python `s.endswith(t)`. -/
def trailsWith (t s : List Char) : Bool :=
  leadsWith t.reverse s.reverse

/-- Character class `[a-zA-Z0-9-]` of the repository regex. -/
def isOwnerChar (c : Char) : Bool :=
  ('a' ≤ c && c ≤ 'z') || ('A' ≤ c && c ≤ 'Z') || ('0' ≤ c && c ≤ '9') || c == '-'

/-- Character class `[a-zA-Z0-9-_.]` of the repository regex (the dashes
after `0-9` and the `_` and `.` are literals in Python's class parser). -/
def isNameChar (c : Char) : Bool :=
  isOwnerChar c || c == '_' || c == '.'

/-- Attempt to match `([a-zA-Z0-9-]+/[a-zA-Z0-9-_.]+)` anchored at the head
of `s`.  Both `+` are greedy; backtracking the first class never helps
because every character it gives back is itself not `/`, so the maximal
runs computed with `takeWhile`/`dropWhile` are exact. -/
def matchRepoAt (s : List Char) : Option (List Char) :=
  match s.takeWhile isOwnerChar, s.dropWhile isOwnerChar with
  | [], _ => none
  | run1, '/' :: rest2 =>
    match rest2.takeWhile isNameChar with
    | [] => none
    | run2 => some (run1 ++ '/' :: run2)
  | _, _ => none

/-- `re.search` of the repository pattern: leftmost match wins. -/
def searchRepo : List Char → Option (List Char)
  | [] => none
  | c :: cs =>
    match matchRepoAt (c :: cs) with
    | some m => some m
    | none => searchRepo cs

/-- `GitHubHandler._extract_repo_info(query, context)`: the context value
under `"repository"` wins whenever `context` is truthy (non-empty) and has
that key; otherwise the first regex match in `query`; otherwise `None`. -/
def _extract_repo_info (query : String) (context : Option Ctx) : PyVal :=
  match context with
  | some d =>
    if !d.isEmpty && dictHasKey d "repository" then dictGet d "repository"
    else
      match searchRepo query.data with
      | some m => PyVal.str (String.mk m)
      | none => PyVal.noneV
  | none =>
    match searchRepo query.data with
    | some m => PyVal.str (String.mk m)
    | none => PyVal.noneV

/-- Scores, stored doubled so that they stay in `Nat`:
`Score` value `2 * k + m` stands for the Python float `k + 0.5 * m`. -/
abbrev Score := Nat

/-- The term loop of `_filter_relevant_files`: `+1` (stored as `+2`) for
each query term that is a substring of the (already lower-cased) name. -/
def termScore (query_terms : List String) (filename : String) : Score :=
  query_terms.foldl
    (fun sc term => if occursIn term.data filename.data then sc + 2 else sc) 0

/-- The bonus extensions of `_filter_relevant_files`. -/
def bonusExts : List String := [".md", ".txt", ".py", ".js", ".java"]

/-- `filename.endswith(('.md', '.txt', '.py', '.js', '.java'))`, applied by
the source to the already lower-cased `filename`. -/
def hasBonusExt (filename : String) : Bool :=
  bonusExts.any (fun e => trailsWith e.data filename.data)

/-- The per-file score of `_filter_relevant_files`: term matches against the
lower-cased name, then `+0.5` (stored `+1`) if the lower-cased name ends in
a bonus extension. -/
def fileScore (query_terms : List String) (f : ContentFile) : Score :=
  if hasBonusExt (pyLower f.name) then termScore query_terms (pyLower f.name) + 1
  else termScore query_terms (pyLower f.name)

/-- The filtering loop of `_filter_relevant_files`: keep `(score, file)`
pairs with `score > 0`, in input order. -/
def scored_files (files : List ContentFile) (query : String) :
    List (Score × ContentFile) :=
  files.filterMap (fun f =>
    if 0 < fileScore (pySplit (pyLower query)) f then
      some (fileScore (pySplit (pyLower query)) f, f)
    else none)

/-- The message of the `TypeError` CPython raises when a tie in the scores
makes `sorted` compare the two `ContentFile` objects (which define no
ordering); quoting of the original message is elided. -/
def typeErrorMsg : String :=
  "TypeError: < not supported between instances of ContentFile and ContentFile"

/-- One Python comparison `a < b` of two `(score, file)` tuples: decided by
the scores when they differ; equal tuples are not less; a score tie between
distinct files falls through to `ContentFile < ContentFile`, which raises. -/
def tupleLt (a b : Score × ContentFile) : Except String Bool :=
  if a.1 = b.1 then
    if a.2 = b.2 then Except.ok false
    else Except.error typeErrorMsg
  else Except.ok (decide (a.1 < b.1))

/-- Stable ascending insertion: `x` (the element arriving later) goes after
every element not greater than it, exactly as CPython's stable sort places
it; each step performs one tuple comparison, which may raise. -/
def insertAsc (x : Score × ContentFile) :
    List (Score × ContentFile) → Except String (List (Score × ContentFile))
  | [] => Except.ok [x]
  | y :: ys =>
    match tupleLt x y with
    | Except.error e => Except.error e
    | Except.ok true => Except.ok (x :: y :: ys)
    | Except.ok false =>
      match insertAsc x ys with
      | Except.error e => Except.error e
      | Except.ok rest => Except.ok (y :: rest)

/-- Left-to-right stable insertion sort (ascending), the observable
behaviour of CPython's stable sort with a comparison that may raise. -/
def sortAscLoop : List (Score × ContentFile) → List (Score × ContentFile) →
    Except String (List (Score × ContentFile))
  | acc, [] => Except.ok acc
  | acc, x :: xs =>
    match insertAsc x acc with
    | Except.error e => Except.error e
    | Except.ok acc2 => sortAscLoop acc2 xs

/-- `sorted(l, reverse=True)` on `(score, file)` tuples: CPython reverses,
sorts ascending (stably), and reverses back. -/
def pySortedRev (l : List (Score × ContentFile)) :
    Except String (List (Score × ContentFile)) :=
  match sortAscLoop [] l.reverse with
  | Except.error e => Except.error e
  | Except.ok asc => Except.ok asc.reverse

/-- `GitHubHandler._filter_relevant_files(files, query)`: score and filter,
sort the `(score, file)` tuples descending, drop the scores.  The result is
an `Except` because the sort itself can raise (score ties). -/
def _filter_relevant_files (files : List ContentFile) (query : String) :
    Except String (List ContentFile) :=
  match pySortedRev (scored_files files query) with
  | Except.error e => Except.error e
  | Except.ok l => Except.ok (l.map (fun sf => sf.2))

/-- `GitHubHandler._create_error_response(error_message)`. -/
def _create_error_response (now msg : String) : List ContentItem :=
  [ContentItem.error msg ⟨"github", now⟩]

/-- The `for file in relevant_files[:5]` loop of `process_query`: the
content is fetched and decoded only when `file.size < 100000`, otherwise
the literal `"File too large"` is used; the first raise aborts the loop. -/
def buildFileItems (p : Provider) (now : String) :
    List ContentFile → Except String (List ContentItem)
  | [] => Except.ok []
  | f :: fs =>
    match (if f.size < 100000 then p.decoded_content f
           else Except.ok "File too large") with
    | Except.error e => Except.error e
    | Except.ok c =>
      match buildFileItems p now fs with
      | Except.error e => Except.error e
      | Except.ok rest =>
        Except.ok
          (ContentItem.file_content f.name f.path f.html_url c ⟨"github", now⟩
            :: rest)

/-- `GitHubHandler.process_query(query, context)`.  The source computes
`repo_info` once; being pure, `_extract_repo_info` is repeated verbatim
here instead of bound to a local.  Every raise inside the `try` body is
converted by the `except` clause into `_create_error_response(str(e))`. -/
def process_query (p : Provider) (now query : String) (context : Option Ctx) :
    List ContentItem :=
  if !(_extract_repo_info query context).truthy then
    _create_error_response now "No repository information found in query"
  else
    match p.get_repo (_extract_repo_info query context) with
    | Except.error e => _create_error_response now e
    | Except.ok repo =>
      match p.get_contents (_extract_repo_info query context) with
      | Except.error e => _create_error_response now e
      | Except.ok search_results =>
        match _filter_relevant_files search_results query with
        | Except.error e => _create_error_response now e
        | Except.ok relevant_files =>
          match buildFileItems p now (relevant_files.take 5) with
          | Except.error e => _create_error_response now e
          | Except.ok items =>
            ContentItem.repository_info repo ⟨"github", now⟩ :: items

/-- The bonus rule exactly as claim C6 words it: the suffix test applied
case-sensitively to the entry's original name. -/
def bonusSuffixClaim (name : String) : Bool :=
  bonusExts.any (fun e => trailsWith e.data name.data)

/-- The bonus rule as the code implements it, stated on the original name:
the suffix test applied to the lower-cased name. -/
def bonusSuffixSpec (name : String) : Bool :=
  bonusExts.any (fun e => trailsWith e.data (pyLower name).data)

/-- Concrete entries used in the example-based claims. -/
def readmeFile : ContentFile := ⟨"README.md", "README.md", "u1", 10⟩

def srcEntry : ContentFile := ⟨"src", "src", "u2", 0⟩

def licenseFile : ContentFile := ⟨"LICENSE.txt", "LICENSE.txt", "u3", 10⟩

def readmeUpper : ContentFile := ⟨"README.MD", "README.MD", "u4", 10⟩

def noteA : ContentFile := ⟨"alpha.md", "alpha.md", "ua", 5⟩

def noteB : ContentFile := ⟨"beta.md", "beta.md", "ub", 5⟩

def c4Query : String := "Show me README in octocat/Hello-World"

/-- A provider whose metadata fetch raises `404 Not Found`. -/
def provider404 : Provider where
  get_repo := fun _ => Except.error "404 Not Found"
  get_contents := fun _ => Except.error "404 Not Found"
  decoded_content := fun _ => Except.error "404 Not Found"

/-- A provider every operation of which raises; used to witness that error
paths never consult the provider. -/
def providerNone : Provider where
  get_repo := fun _ => Except.error "unreachable"
  get_contents := fun _ => Except.error "unreachable"
  decoded_content := fun _ => Except.error "unreachable"

/-- Helper: when the context dictionary is non-empty and holds the
`"repository"` key, `_extract_repo_info` returns the stored value. -/
theorem extract_context_key (query : String) (d : Ctx)
    (h : dictHasKey d "repository" = true) :
    _extract_repo_info query (some d) = dictGet d "repository" := by
  have hne : d.isEmpty = false := by
    cases d with
    | nil => simp [dictHasKey] at h
    | cons a as => rfl
  unfold _extract_repo_info
  simp [hne, h]

/-- Helper: a successful run of the file loop yields one `file_content`
item per input entry, in order. -/
theorem buildFileItems_ok_shape (p : Provider) (now : String) :
    ∀ (fs : List ContentFile) (items : List ContentItem),
      buildFileItems p now fs = Except.ok items →
      items.length = fs.length ∧
      ∀ it ∈ items, ∃ n pa u c,
        it = ContentItem.file_content n pa u c ⟨"github", now⟩ := by
  intro fs
  induction fs with
  | nil =>
    intro items h
    simp only [buildFileItems] at h
    injection h with h'
    subst h'
    refine ⟨rfl, ?_⟩
    intro it hit
    cases hit
  | cons f fs ih =>
    intro items h
    simp only [buildFileItems] at h
    cases hc : (if f.size < 100000 then p.decoded_content f
                else Except.ok "File too large") with
    | error e => rw [hc] at h; exact Except.noConfusion h
    | ok c =>
      rw [hc] at h
      cases hb : buildFileItems p now fs with
      | error e => rw [hb] at h; exact Except.noConfusion h
      | ok rest =>
        rw [hb] at h
        injection h with h'
        subst h'
        obtain ⟨hlen, hall⟩ := ih rest hb
        refine ⟨by simp [hlen], ?_⟩
        intro it hit
        rcases List.mem_cons.mp hit with hit | hit
        · exact ⟨f.name, f.path, f.html_url, c, hit⟩
        · exact hall it hit

/-- C1: for every provider behaviour, query and context, the resolver
returns either exactly one `error` item, or one `repository_info` item
followed by at most five `file_content` items; error and success items are
never mixed. -/
theorem c1_output_shape (p : Provider) (now query : String)
    (context : Option Ctx) :
    (∃ msg, process_query p now query context =
      [ContentItem.error msg ⟨"github", now⟩]) ∨
    (∃ repo items,
      process_query p now query context =
        ContentItem.repository_info repo ⟨"github", now⟩ :: items ∧
      items.length ≤ 5 ∧
      ∀ it ∈ items, ∃ n pa u c,
        it = ContentItem.file_content n pa u c ⟨"github", now⟩) := by
  unfold process_query _create_error_response
  split
  · exact Or.inl ⟨_, rfl⟩
  · split
    · exact Or.inl ⟨_, rfl⟩
    · split
      · exact Or.inl ⟨_, rfl⟩
      · split
        · exact Or.inl ⟨_, rfl⟩
        · split
          · exact Or.inl ⟨_, rfl⟩
          · rename_i items hbuild
            obtain ⟨hlen, hall⟩ :=
              buildFileItems_ok_shape p now _ items hbuild
            refine Or.inr ⟨_, items, rfl, ?_, hall⟩
            rw [hlen, List.length_take]
            exact min_le_left _ _

/-- C2: once an identifier was extracted, a raise in any provider operation
(metadata fetch, listing fetch, or the per-file content fetch/decode loop)
makes the resolver return exactly the single error item carrying that
exception's message — items built before the failure are discarded. -/
theorem c2_provider_failure (p : Provider) (now query : String)
    (context : Option Ctx)
    (ht : (_extract_repo_info query context).truthy = true) :
    (∀ e, p.get_repo (_extract_repo_info query context) = Except.error e →
      process_query p now query context =
        [ContentItem.error e ⟨"github", now⟩]) ∧
    (∀ repo e,
      p.get_repo (_extract_repo_info query context) = Except.ok repo →
      p.get_contents (_extract_repo_info query context) = Except.error e →
      process_query p now query context =
        [ContentItem.error e ⟨"github", now⟩]) ∧
    (∀ repo files rel e,
      p.get_repo (_extract_repo_info query context) = Except.ok repo →
      p.get_contents (_extract_repo_info query context) = Except.ok files →
      _filter_relevant_files files query = Except.ok rel →
      buildFileItems p now (rel.take 5) = Except.error e →
      process_query p now query context =
        [ContentItem.error e ⟨"github", now⟩]) := by
  refine ⟨?_, ?_, ?_⟩
  · intro e he
    unfold process_query
    rw [ht, he]
    rfl
  · intro repo e hr hc
    unfold process_query
    rw [ht, hr, hc]
    rfl
  · intro repo files rel e hr hc hf hb
    unfold process_query
    rw [ht]
    simp only [hr, hc, hf, hb]
    rfl

/-- Witness for C2, instantiating the claim's own example: the metadata
fetch raises `404 Not Found`, and the resolver returns exactly one error
item with that content. -/
theorem c2_witness :
    (_extract_repo_info "a/b" none).truthy = true ∧
    process_query provider404 "t" "a/b" none =
      [ContentItem.error "404 Not Found" ⟨"github", "t"⟩] :=
  ⟨by decide,
    (c2_provider_failure provider404 "t" "a/b" none (by decide)).1
      "404 Not Found" rfl⟩

/-- C3: when the extractor derives no identifier (returns `None`), the
resolver returns the fixed single error item; the result is the same for
every provider, so no remote call can influence it. -/
theorem c3_no_identifier (now query : String) (context : Option Ctx)
    (h : _extract_repo_info query context = PyVal.noneV) (p : Provider) :
    process_query p now query context =
      [ContentItem.error "No repository information found in query"
        ⟨"github", now⟩] := by
  unfold process_query
  rw [h]
  rfl

/-- Witness for C3 at a query with no `owner/name` substring and no
context, under a provider all of whose operations would raise. -/
theorem c3_witness :
    _extract_repo_info "hello world" none = PyVal.noneV ∧
    process_query providerNone "t" "hello world" none =
      [ContentItem.error "No repository information found in query"
        ⟨"github", "t"⟩] :=
  ⟨by decide, c3_no_identifier "t" "hello world" none (by decide) providerNone⟩

/-- C7: in the file loop, an entry of size at least 100000 contributes the
literal content `"File too large"` and its content fetch is never consulted
(the right-hand side only runs the loop on the remaining entries), while an
entry of size at most 99999 has its content fetched and decoded, the result
or failure of which is used. -/
theorem c7_size_guard (p : Provider) (now : String) (f : ContentFile)
    (fs : List ContentFile) :
    buildFileItems p now (f :: fs) =
      if f.size < 100000 then
        (p.decoded_content f).bind (fun c =>
          (buildFileItems p now fs).map (fun rest =>
            ContentItem.file_content f.name f.path f.html_url c
              ⟨"github", now⟩ :: rest))
      else
        (buildFileItems p now fs).map (fun rest =>
          ContentItem.file_content f.name f.path f.html_url "File too large"
            ⟨"github", now⟩ :: rest) := by
  by_cases h : f.size < 100000
  · simp only [buildFileItems, if_pos h]
    cases p.decoded_content f with
    | error e => rfl
    | ok c =>
      cases buildFileItems p now fs with
      | error e => rfl
      | ok rest => rfl
  · simp only [buildFileItems, if_neg h]
    cases buildFileItems p now fs with
    | error e => rfl
    | ok rest => rfl

/-- C9: a context that contains the key `"repository"` makes the extractor
return the stored value verbatim, with no shape validation, regardless of
the query text. -/
theorem c9_context_wins (query : String) (d : Ctx)
    (h : dictHasKey d "repository" = true) :
    _extract_repo_info query (some d) = dictGet d "repository" :=
  extract_context_key query d h

/-- Witness for C9: the context value wins even though the query itself
contains an `owner/name` pattern. -/
theorem c9_witness :
    _extract_repo_info "see x/y" (some [("repository", PyVal.str "o/r")]) =
      dictGet [("repository", PyVal.str "o/r")] "repository" ∧
    dictGet [("repository", PyVal.str "o/r")] "repository" =
      PyVal.str "o/r" :=
  ⟨c9_context_wins "see x/y" [("repository", PyVal.str "o/r")] (by decide),
    rfl⟩

/-- C10: when the context maps `"repository"` to a falsy value (empty
string, `None`, ...), the extractor still returns that value, but the
resolver's truthiness test treats it as absent: the fixed single error item
is returned, identically for every provider, so no remote fetch happens. -/
theorem c10_falsy_context (p : Provider) (now query : String) (d : Ctx)
    (h1 : dictHasKey d "repository" = true)
    (h2 : (dictGet d "repository").truthy = false) :
    _extract_repo_info query (some d) = dictGet d "repository" ∧
    process_query p now query (some d) =
      [ContentItem.error "No repository information found in query"
        ⟨"github", now⟩] := by
  have hex := extract_context_key query d h1
  refine ⟨hex, ?_⟩
  unfold process_query
  rw [hex, h2]
  rfl

/-- Witness for C10 with the empty string under `"repository"`, a query
that does contain an `owner/name` pattern, and a provider all of whose
operations would raise. -/
theorem c10_witness :
    dictHasKey [("repository", PyVal.str "")] "repository" = true ∧
    (dictGet [("repository", PyVal.str "")] "repository").truthy = false ∧
    process_query providerNone "t" "whatever a/b"
        (some [("repository", PyVal.str "")]) =
      [ContentItem.error "No repository information found in query"
        ⟨"github", "t"⟩] :=
  ⟨by decide, by decide,
    (c10_falsy_context providerNone "t" "whatever a/b"
      [("repository", PyVal.str "")] (by decide) (by decide)).2⟩

/-- Counterexample to C4 as stated: for the example query, `README.md`
scores 2.5 — `Score` value 5, not the claimed 1.5 (`Score` 3) — because the
query term `"me"` is also a substring of `"readme.md"`; `LICENSE.txt`
scores 0.5 (`Score` 1), not 0, because the `.txt` bonus needs no term
match; and the ranked output is `[README.md, LICENSE.txt]`, not the
one-element list `[README.md]`. -/
theorem c4_counterexample :
    fileScore (pySplit (pyLower c4Query)) readmeFile = 5 ∧ (5 : Score) ≠ 3 ∧
    fileScore (pySplit (pyLower c4Query)) licenseFile = 1 ∧ (1 : Score) ≠ 0 ∧
    _filter_relevant_files [readmeFile, srcEntry, licenseFile] c4Query =
      Except.ok [readmeFile, licenseFile] ∧
    ([readmeFile, licenseFile] : List ContentFile) ≠ [readmeFile] :=
  ⟨rfl, by decide, rfl, by decide, rfl, by decide⟩

/-- C4 amended: for the query `"Show me README in octocat/Hello-World"`
with no context, the extractor returns `"octocat/Hello-World"`; the ranker
scores `README.md` at 2.5 (`Score` 5: terms `me` and `readme` both match,
plus the `.md` bonus), `LICENSE.txt` at 0.5 (`Score` 1: the `.txt` bonus
alone), `src` at 0, and returns `[README.md, LICENSE.txt]`. -/
theorem c4_example_behaviour :
    _extract_repo_info c4Query none = PyVal.str "octocat/Hello-World" ∧
    fileScore (pySplit (pyLower c4Query)) readmeFile = 5 ∧
    fileScore (pySplit (pyLower c4Query)) licenseFile = 1 ∧
    fileScore (pySplit (pyLower c4Query)) srcEntry = 0 ∧
    _filter_relevant_files [readmeFile, srcEntry, licenseFile] c4Query =
      Except.ok [readmeFile, licenseFile] :=
  ⟨rfl, rfl, rfl, rfl, rfl⟩

/-- Counterexample to C5 as stated: ranking `[README.md]` with a query that
has no terms returns `[README.md]`, not the empty list — the `.md` bonus
alone gives score 0.5, which survives the `score > 0` filter. -/
theorem c5_counterexample :
    _filter_relevant_files [readmeFile] "" = Except.ok [readmeFile] ∧
    ([readmeFile] : List ContentFile) ≠ [] :=
  ⟨rfl, by decide⟩

/-- C5 amended: with a term-less query (empty or whitespace-only), the
scoring-and-filter stage removes exactly the entries whose lower-cased name
does not end in a bonus extension; every bonus-extension entry is kept with
score 0.5 (`Score` 1), in input order. -/
theorem c5_no_terms (files : List ContentFile) (query : String)
    (h : pySplit (pyLower query) = []) :
    scored_files files query =
      (files.filter (fun f => hasBonusExt (pyLower f.name))).map
        (fun f => ((1 : Score), f)) := by
  unfold scored_files
  rw [h]
  induction files with
  | nil => rfl
  | cons f fs ih =>
    cases hb : hasBonusExt (pyLower f.name) with
    | true =>
      have hs : fileScore [] f = 1 := by
        simp [fileScore, termScore, hb]
      simp [List.filterMap_cons, List.filter_cons, hs, hb, ih]
    | false =>
      have hs : fileScore [] f = 0 := by
        simp [fileScore, termScore, hb]
      simp [List.filterMap_cons, List.filter_cons, hs, hb, ih]

/-- Witness for C5 amended, at the whitespace-only query `" "`. -/
theorem c5_witness :
    pySplit (pyLower " ") = [] ∧
    scored_files [readmeFile, srcEntry] " " = [((1 : Score), readmeFile)] :=
  ⟨rfl, by rw [c5_no_terms [readmeFile, srcEntry] " " rfl]; rfl⟩

/-- Counterexample to C6 as stated: the claim's case-sensitive suffix rule
gives `"README.MD"` no bonus, but the code lower-cases the name before the
`endswith` test, so the entry scores 0.5 (`Score` 1), not 0, under a query
none of whose terms match. -/
theorem c6_counterexample :
    bonusSuffixClaim "README.MD" = false ∧
    fileScore (pySplit (pyLower "zzz")) readmeUpper = 1 ∧ (1 : Score) ≠ 0 :=
  ⟨rfl, rfl, by decide⟩

/-- C6 amended: the +0.5 bonus (`Score` +1) is granted exactly when the
lower-cased entry name ends with one of `.md`, `.txt`, `.py`, `.js`,
`.java` — i.e. the suffix match is case-insensitive on the original name,
and upper-case variants such as `README.MD` do receive it. -/
theorem c6_bonus_case (query_terms : List String) (f : ContentFile) :
    fileScore query_terms f =
      termScore query_terms (pyLower f.name) +
        (if bonusSuffixSpec f.name = true then 1 else 0) := by
  unfold fileScore bonusSuffixSpec hasBonusExt
  cases hb : bonusExts.any (fun e => trailsWith e.data (pyLower f.name).data) with
  | true => rfl
  | false => rfl

/-- C8, evaluated at the failing input: two kept entries with equal scores
(`alpha.md` and `beta.md`, each 0.5 under query `"zzz"`) make
`sorted(scored_files, reverse=True)` compare the two `ContentFile` objects,
which support no ordering, so the ranker raises instead of preserving the
input order of the tie. -/
theorem c8_tie_raises :
    _filter_relevant_files [noteA, noteB] "zzz" = Except.error typeErrorMsg :=
  rfl
